import Mathlib

/-!
Verification development for the Adlytics integration layer.

The definitions below are a shallow embedding of the repository's two
components: the retrying rate-limited HTTP client
(`ingestion_service/base_client.py`) and the notification dispatcher with
its three channel senders (`notifications_service/`).  Python exceptions
are modelled by an explicit kind type together with `Except`; machine
effects (the aiohttp transport, the Telegram/SMTP/SMS transports) are
modelled by explicit outcome parameters fed to the embedded functions.
-/

namespace Adlytics

/-! ## Exception model

Kinds of Python exceptions relevant to the code.  `clientResponseError`
models `aiohttp.ClientResponseError` (raised by `resp.raise_for_status()`),
which in aiohttp's class hierarchy is a subclass of `aiohttp.ClientError`;
`clientConnError` models the remaining transport-level
`aiohttp.ClientError`s (connection failures), `timeoutError` models
`asyncio.TimeoutError`, `jsonDecodeError` models `json.JSONDecodeError`
(a `ValueError`, not an `aiohttp.ClientError`) raised by `resp.json()` on a
malformed body, `contentTypeError` models `aiohttp.ContentTypeError`.
`telegramError` and `smtpException` model `telegram.error.TelegramError`
and `aiosmtplib.SMTPException`; `otherError` stands for any exception of
a kind not otherwise listed. -/
inductive Exc where
  | clientConnError
  | timeoutError
  | clientResponseError (status : Nat)
  | jsonDecodeError
  | contentTypeError
  | telegramError
  | smtpException
  | otherError
deriving DecidableEq, Repr

/-- aiohttp class hierarchy: `ClientResponseError` and `ContentTypeError`
are subclasses of `ClientError`, as are connection errors. -/
def Exc.isClientError : Exc → Bool
  | .clientConnError => true
  | .clientResponseError _ => true
  | .contentTypeError => true
  | _ => false

/-- The exception tuple of the `backoff.on_exception` decorator on
`BaseClient._request`: `(aiohttp.ClientError, asyncio.TimeoutError)`.
An exception is caught (and hence retried) by the backoff layer iff it is
an instance of one of these. -/
def backoffCatches (e : Exc) : Bool :=
  e.isClientError || e == Exc.timeoutError

/-! ## JSON and HTTP response model -/

/-- A decoded JSON structure (`JSONType` in `base_client.py`). -/
inductive JsonValue where
  | null
  | bool (b : Bool)
  | num (n : Int)
  | str (s : String)
  | arr (elems : List JsonValue)
  | obj (fields : List (String × JsonValue))

/-- `ResponseBody` from `base_client.py`: decoded JSON or raw text. -/
inductive ResponseBody where
  | json (j : JsonValue)
  | text (s : String)

/-- An HTTP response as observed by `_request`: the status code, whether
the `Content-Type` header is a JSON type (what `aiohttp.resp.json()`
checks before decoding), the result of JSON-parsing the body
(`none` when the body is not valid JSON), and the raw body text. -/
structure HttpResponse where
  status : Nat
  contentTypeJson : Bool
  parsedJson : Option JsonValue
  text : String

/-- Outcome of one `session.request(...)` transport call: either the call
itself fails with an exception (connection error, timeout, ...) or it
yields a response. -/
inductive TransportOutcome where
  | fail (e : Exc)
  | ok (r : HttpResponse)

/-- `aiohttp`'s `resp.json()`: raises `ContentTypeError` when the
content type is not JSON; otherwise decodes the body, raising
`json.JSONDecodeError` when the body is not valid JSON. -/
def respJson (r : HttpResponse) : Except Exc JsonValue :=
  if r.contentTypeJson then
    match r.parsedJson with
    | some j => Except.ok j
    | none => Except.error Exc.jsonDecodeError
  else
    Except.error Exc.contentTypeError

/-- `aiohttp`'s `resp.raise_for_status()`: raises
`ClientResponseError` carrying the status when `status >= 400`. -/
def raiseForStatus (r : HttpResponse) : Except Exc Unit :=
  if r.status ≥ 400 then Except.error (Exc.clientResponseError r.status)
  else Except.ok ()

/-! ## URL joining (`BaseClient.__init__` and `_request`) -/

/-- `List.dropWhile` specialised to slash characters. -/
def dropSlash (l : List Char) : List Char :=
  l.dropWhile (fun c => c == '/')

/-- Python `s.rstrip("/")`: remove every trailing slash. -/
def rstripSlash (s : String) : String :=
  String.mk (dropSlash s.data.reverse).reverse

/-- Python `s.lstrip("/")`: remove every leading slash. -/
def lstripSlash (s : String) : String :=
  String.mk (dropSlash s.data)

/-- The client state established by `BaseClient.__init__` that the claims
depend on: `self.base_url = base_url.rstrip("/")`. -/
structure Client where
  base : String

/-- `BaseClient.__init__`. -/
def mkClient (baseUrl : String) : Client :=
  { base := rstripSlash baseUrl }

/-- The URL built inside `_request`:
`f"{self.base_url.rstrip('/')}/{endpoint.lstrip('/')}"`. -/
def requestUrl (c : Client) (endpoint : String) : String :=
  rstripSlash c.base ++ "/" ++ lstripSlash endpoint

/-! ## One attempt of `BaseClient._request` (the decorated body) -/

/-- What one attempt of `_request` did: the URL and method issued to the
transport, and whether the `4xx/5xx` branch read the body as text. -/
structure AttemptTrace where
  url : String
  method : String
  errorBodyRead : Bool

/-- The body of `BaseClient._request` for one attempt, given the
transport outcome: builds the URL, issues the request; on
`status >= 400` reads the body as text (for the log) and calls
`raise_for_status()`; on success tries `resp.json()`, falling back to
`resp.text()` only on `ContentTypeError`. -/
def requestAttempt (c : Client) (method endpoint : String)
    (t : TransportOutcome) : Except Exc ResponseBody × AttemptTrace :=
  let url := requestUrl c endpoint
  match t with
  | TransportOutcome.fail e => (Except.error e, ⟨url, method, false⟩)
  | TransportOutcome.ok r =>
    if r.status ≥ 400 then
      -- body = await resp.text(); logger.warning(...); resp.raise_for_status()
      (Except.error (Exc.clientResponseError r.status), ⟨url, method, true⟩)
    else
      match respJson r with
      | Except.ok j => (Except.ok (ResponseBody.json j), ⟨url, method, false⟩)
      | Except.error Exc.contentTypeError =>
          (Except.ok (ResponseBody.text r.text), ⟨url, method, false⟩)
      | Except.error e => (Except.error e, ⟨url, method, false⟩)

/-! ## The backoff layer (`backoff.on_exception` around `_request`) -/

/-- `backoff.on_exception(backoff.expo, (aiohttp.ClientError,
asyncio.TimeoutError), max_tries=backoff_max_tries)` around the attempt
body.  `o` gives the transport outcome of each successive attempt; the
`Nat` argument is the remaining try budget (`max_tries` counts total
calls).  Returns the final result and the number of attempts made: an
exception caught by the tuple is retried while budget remains, any other
exception — and any exception on the last allowed try — propagates. -/
def requestWithRetry (c : Client) (method endpoint : String)
    (o : Nat → TransportOutcome) : Nat → Except Exc ResponseBody × Nat
  | 0 => (Except.error Exc.otherError, 0)
  | 1 => ((requestAttempt c method endpoint (o 0)).1, 1)
  | (n+2) =>
    match (requestAttempt c method endpoint (o 0)).1 with
    | Except.ok v => (Except.ok v, 1)
    | Except.error e =>
      if backoffCatches e then
        let p := requestWithRetry c method endpoint (fun k => o (k+1)) (n+1)
        (p.1, p.2 + 1)
      else (Except.error e, 1)

/-- `BaseClient.get`: delegates to `_request("GET", endpoint, ...)`. -/
def clientGet (c : Client) (endpoint : String) (o : Nat → TransportOutcome)
    (maxTries : Nat) : Except Exc ResponseBody × Nat :=
  requestWithRetry c "GET" endpoint o maxTries

/-! ## Session lifecycle (`BaseClient._ensure_session`) -/

/-- An `aiohttp.ClientSession` instance: identified by `sid`, with its
`closed` flag. -/
structure Session where
  sid : Nat
  closed : Bool
deriving DecidableEq, Repr

/-- The session-related state of a client: `self._session` (possibly
`None`) and a freshness counter used to give a newly constructed
`ClientSession` an identity distinct from every existing one. -/
structure SessionState where
  session : Option Session
  nextSid : Nat
deriving DecidableEq, Repr

/-- Every session the state ever held has `sid < nextSid`, so `nextSid`
identifies a genuinely new instance. -/
def SessionState.wf (st : SessionState) : Prop :=
  ∀ s, st.session = some s → s.sid < st.nextSid

/-- `BaseClient._ensure_session`:
`if self._session is None or self._session.closed: self._session =
aiohttp.ClientSession(...)`. -/
def ensureSession (st : SessionState) : SessionState :=
  match st.session with
  | none => { session := some ⟨st.nextSid, false⟩, nextSid := st.nextSid + 1 }
  | some s =>
    if s.closed then
      { session := some ⟨st.nextSid, false⟩, nextSid := st.nextSid + 1 }
    else st

/-! ## Notification side: messages and senders -/

/-- The loosely-typed message envelope `{to, content, channel, type?,
subject?}`; `none` models an absent key (`dict.get` returning `None`).
The `to` and `type` keys are modelled by the fields `mto` and `mtype`
(`to` is reserved in Lean). -/
structure Message where
  mto : Option String
  content : Option String
  channel : Option String
  mtype : Option String
  subject : Option String
deriving DecidableEq, Repr

/-- Python truthiness test `not x` for an optional string value:
true when the key is absent (`None`) or the string is empty. -/
def falsy : Option String → Bool
  | none => true
  | some s => s.isEmpty

/-- Outcome of one call to a sender's underlying transport
(`bot.send_*`, the SMTP round-trip): it returns, or raises an exception
of some kind. -/
inductive SendOutcome where
  | success
  | raises (e : Exc)
deriving DecidableEq, Repr

/-- Outcome of the SMS gateway POST: a response with a status code, or
an exception. -/
inductive SmsOutcome where
  | resp (status : Nat)
  | raises (e : Exc)
deriving DecidableEq, Repr

/-- The `type -> handler` registry built in `TelegramSender.__init__`. -/
def tgSendMethods : List String := ["text", "photo", "document"]

/-- `TelegramSender._send`: validates `to`/`content`, resolves the
handler by `message.get("type", "text")`, then calls the transport inside
`try ... except TelegramError`.  Result: the Python return value (or the
escaping exception), paired with whether the transport was invoked. -/
def telegramSend (m : Message) (t : SendOutcome) :
    Except Exc Bool × Bool :=
  if falsy m.mto || falsy m.content then (Except.ok false, false)
  else
    let msgType := m.mtype.getD "text"
    if tgSendMethods.contains msgType then
      match t with
      | SendOutcome.success => (Except.ok true, true)
      | SendOutcome.raises e =>
        if e == Exc.telegramError then (Except.ok false, true)
        else (Except.error e, true)
    else (Except.ok false, false)

/-- `EmailSender._send`: validates `to`/`content`, builds the MIME
message, then performs the SMTP round-trip inside
`try ... except SMTPException`. -/
def emailSend (m : Message) (t : SendOutcome) :
    Except Exc Bool × Bool :=
  if falsy m.mto || falsy m.content then (Except.ok false, false)
  else
    match t with
    | SendOutcome.success => (Except.ok true, true)
    | SendOutcome.raises e =>
      if e == Exc.smtpException then (Except.ok false, true)
      else (Except.error e, true)

/-- `SmsSender._send`: validates `to`/`content`, POSTs to the gateway
inside `try ... except Exception`; on a response, succeeds iff
`response.status_code in (200, 201)`. -/
def smsSend (m : Message) (t : SmsOutcome) :
    Except Exc Bool × Bool :=
  if falsy m.mto || falsy m.content then (Except.ok false, false)
  else
    match t with
    | SmsOutcome.resp status =>
        (Except.ok (status == 200 || status == 201), true)
    | SmsOutcome.raises _ => (Except.ok false, true)

/-! ## The dispatcher (`NotificationDispatcher`) -/

/-- A sender held in the dispatcher's registry. -/
inductive SenderTag where
  | telegram
deriving DecidableEq, Repr

/-- The registry built by `NotificationDispatcher.__init__`:
`{"telegram": TelegramSender()}` (the email and SMS entries are commented
out in the source). -/
def senderRegistry : List (String × SenderTag) :=
  [("telegram", SenderTag.telegram)]

/-- Run the registered sender's `_send` on the message. -/
def runSender : SenderTag → Message → SendOutcome → Except Exc Bool × Bool
  | SenderTag.telegram, m, t => telegramSend m t

/-- `NotificationDispatcher.send`: reads `message.get("channel")`, looks
the sender up in the registry, returns `False` when there is none, and
otherwise returns `await sender._send(message)` verbatim.  The second
component records whether some sender's `_send` was invoked. -/
def dispatchSend (m : Message) (t : SendOutcome) : Except Exc Bool × Bool :=
  match m.channel.bind (fun c => senderRegistry.lookup c) with
  | none => (Except.ok false, false)
  | some tag => ((runSender tag m t).1, true)

/-! ## Observations used to state the URL-normalization property -/

/-- A string made of `k` slash characters. -/
def slashes (k : Nat) : String :=
  String.mk (List.replicate k '/')

/-- The string starts with a slash character. -/
def startsWithSlash (s : String) : Prop :=
  s.data.head? = some '/'

/-- The string ends with a slash character. -/
def endsWithSlash (s : String) : Prop :=
  s.data.reverse.head? = some '/'

instance (s : String) : Decidable (startsWithSlash s) := by
  unfold startsWithSlash; infer_instance

instance (s : String) : Decidable (endsWithSlash s) := by
  unfold endsWithSlash; infer_instance

/-! ## Helper lemmas about slash stripping -/

theorem dropSlash_cons_slash (l : List Char) :
    dropSlash ('/' :: l) = dropSlash l := by
  simp [dropSlash, List.dropWhile_cons]

theorem dropSlash_replicate_append (k : Nat) (l : List Char) :
    dropSlash (List.replicate k '/' ++ l) = dropSlash l := by
  induction k with
  | zero => simp
  | succ n ih =>
    rw [List.replicate_succ, List.cons_append, dropSlash_cons_slash]
    exact ih

theorem dropSlash_idem (l : List Char) :
    dropSlash (dropSlash l) = dropSlash l := by
  induction l with
  | nil => rfl
  | cons a l ih =>
    by_cases h : a = '/'
    · subst h; rw [dropSlash_cons_slash]; exact ih
    · have hb : (a == '/') = false := by simp [h]
      simp [dropSlash, List.dropWhile_cons, hb]

theorem dropSlash_head_ne (l : List Char) :
    (dropSlash l).head? ≠ some '/' := by
  induction l with
  | nil => simp [dropSlash]
  | cons a l ih =>
    by_cases h : a = '/'
    · subst h; rw [dropSlash_cons_slash]; exact ih
    · have hb : (a == '/') = false := by simp [h]
      simp [dropSlash, List.dropWhile_cons, hb]
      exact h

theorem string_data_append (s t : String) :
    (s ++ t).data = s.data ++ t.data := rfl

theorem rstripSlash_idem (s : String) :
    rstripSlash (rstripSlash s) = rstripSlash s := by
  unfold rstripSlash
  rw [show (String.mk (dropSlash s.data.reverse).reverse).data =
        (dropSlash s.data.reverse).reverse from rfl,
      List.reverse_reverse, dropSlash_idem]

theorem rstripSlash_append_slashes (b : String) (k : Nat) :
    rstripSlash (b ++ slashes k) = rstripSlash b := by
  unfold rstripSlash
  rw [string_data_append, List.reverse_append,
      show (slashes k).data = List.replicate k '/' from rfl,
      List.reverse_replicate, dropSlash_replicate_append]

theorem lstripSlash_slashes_append (e : String) (k : Nat) :
    lstripSlash (slashes k ++ e) = lstripSlash e := by
  unfold lstripSlash
  rw [string_data_append,
      show (slashes k).data = List.replicate k '/' from rfl,
      dropSlash_replicate_append]

theorem rstripSlash_not_endsWithSlash (s : String) :
    ¬ endsWithSlash (rstripSlash s) := by
  unfold endsWithSlash rstripSlash
  rw [show (String.mk (dropSlash s.data.reverse).reverse).data =
        (dropSlash s.data.reverse).reverse from rfl,
      List.reverse_reverse]
  exact dropSlash_head_ne _

theorem lstripSlash_not_startsWithSlash (s : String) :
    ¬ startsWithSlash (lstripSlash s) := by
  unfold startsWithSlash lstripSlash
  exact dropSlash_head_ne _

/-! ## Helper lemmas about `_request` and the backoff layer -/

theorem requestAttempt_url (c : Client) (me ep : String)
    (t : TransportOutcome) :
    (requestAttempt c me ep t).2.url = requestUrl c ep := by
  cases t with
  | fail e => rfl
  | ok r =>
    simp only [requestAttempt]
    split
    · rfl
    · split <;> rfl

theorem requestWithRetry_first_ok (c : Client) (me ep : String)
    (o : Nat → TransportOutcome) (n : Nat) (hn : 1 ≤ n)
    (v : ResponseBody) (h : (requestAttempt c me ep (o 0)).1 = Except.ok v) :
    requestWithRetry c me ep o n = (Except.ok v, 1) := by
  match n, hn with
  | 1, _ => simp [requestWithRetry, h]
  | (n+2), _ => simp [requestWithRetry, h]

theorem requestWithRetry_const_error (c : Client) (me ep : String)
    (r : HttpResponse) (h : 400 ≤ r.status) :
    ∀ n, 1 ≤ n →
      requestWithRetry c me ep (fun _ => TransportOutcome.ok r) n =
        (Except.error (Exc.clientResponseError r.status), n) := by
  intro n
  induction n with
  | zero => intro h1; omega
  | succ m ih =>
    intro _
    cases m with
    | zero =>
      simp [requestWithRetry, requestAttempt, h]
    | succ k =>
      have hr : (requestAttempt c me ep (TransportOutcome.ok r)).1 =
          Except.error (Exc.clientResponseError r.status) := by
        simp [requestAttempt, h]
      have hrec := ih (by omega)
      simp [requestWithRetry, hr, backoffCatches, Exc.isClientError, hrec]

/-! ## Claims -/

/-- C2: for every response with HTTP status `>= 400`,
`BaseClient._request` never returns normally: the attempt reads the body
as text (`errorBodyRead`) and raises an error carrying the status code,
for every method, endpoint and response body. -/
theorem request_error_status_always_raises (c : Client) (me ep : String)
    (r : HttpResponse) (h : 400 ≤ r.status) :
    (requestAttempt c me ep (TransportOutcome.ok r)).1 =
      Except.error (Exc.clientResponseError r.status) ∧
    (requestAttempt c me ep (TransportOutcome.ok r)).2.errorBodyRead
      = true := by
  constructor <;> simp [requestAttempt, h]

/-- Witness for C2 at a concrete 404 response. -/
theorem request_error_status_always_raises_witness :
    (requestAttempt (mkClient "https://api.test.com") "GET" "users"
        (TransportOutcome.ok ⟨404, false, none, "not found"⟩)).1 =
      Except.error (Exc.clientResponseError 404) ∧
    (requestAttempt (mkClient "https://api.test.com") "GET" "users"
        (TransportOutcome.ok ⟨404, false, none, "not found"⟩)).2.errorBodyRead
      = true :=
  request_error_status_always_raises (mkClient "https://api.test.com")
    "GET" "users" ⟨404, false, none, "not found"⟩ (by norm_num)

/-- C5: `_ensure_session` — if the session is `None` or closed, the call
installs a new (fresh `sid`), open session; if the session is already
open, the call leaves the state untouched (same instance, still open). -/
theorem ensureSession_spec (st : SessionState) (hwf : st.wf) :
    ((st.session = none ∨ ∃ s, st.session = some s ∧ s.closed = true) →
      ∃ t, (ensureSession st).session = some t ∧ t.closed = false ∧
        ∀ s, st.session = some s → s.sid ≠ t.sid) ∧
    (∀ s, st.session = some s → s.closed = false →
      ensureSession st = st) := by
  constructor
  · intro h
    cases hst : st.session with
    | none =>
      exact ⟨⟨st.nextSid, false⟩, by simp [ensureSession, hst], rfl,
        fun s hs => by cases hs⟩
    | some s =>
      have hc : s.closed = true := by
        rcases h with h1 | ⟨s2, hs2, hc2⟩
        · rw [hst] at h1; cases h1
        · rw [hst] at hs2; cases hs2; exact hc2
      refine ⟨⟨st.nextSid, false⟩, by simp [ensureSession, hst, hc], rfl, ?_⟩
      intro s2 hs2
      cases hs2
      exact Nat.ne_of_lt (hwf s hst)
  · intro s hs hc
    unfold ensureSession
    rw [hs]
    simp [hc]

/-- Witness for C5: a closed session with `sid = 0` is replaced by a new
open one. -/
theorem ensureSession_spec_witness :
    ∃ t, (ensureSession ⟨some ⟨0, true⟩, 1⟩).session = some t ∧
      t.closed = false ∧
      ∀ s, (⟨some ⟨0, true⟩, 1⟩ : SessionState).session = some s →
        s.sid ≠ t.sid :=
  (ensureSession_spec ⟨some ⟨0, true⟩, 1⟩
      (fun s hs => by cases hs; decide)).1
    (Or.inr ⟨⟨0, true⟩, rfl, rfl⟩)

/-- C7 counterexample: a 200 response whose content type is JSON but
whose body does not parse makes `_request` raise a JSON decode error
(`json.JSONDecodeError` is not an `aiohttp.ContentTypeError`, so the
text fallback does not catch it) instead of returning the raw text. -/
theorem success_body_decoding_counterexample :
    (requestAttempt (mkClient "https://api.test.com") "GET" "data"
        (TransportOutcome.ok ⟨200, true, none, "not json"⟩)).1 =
      Except.error Exc.jsonDecodeError := rfl

/-- C7 amended: on a successful (`status < 400`) response, `_request`
returns the decoded structure when the body is JSON-content-typed and
parses; it returns the raw text, without raising, when the content type
is not JSON; but a JSON-content-typed body that fails to parse raises a
decode error. -/
theorem success_body_decoding (c : Client) (me ep : String)
    (r : HttpResponse) (h : r.status < 400) :
    (∀ j, r.contentTypeJson = true → r.parsedJson = some j →
      (requestAttempt c me ep (TransportOutcome.ok r)).1 =
        Except.ok (ResponseBody.json j)) ∧
    (r.contentTypeJson = false →
      (requestAttempt c me ep (TransportOutcome.ok r)).1 =
        Except.ok (ResponseBody.text r.text)) ∧
    (r.contentTypeJson = true → r.parsedJson = none →
      (requestAttempt c me ep (TransportOutcome.ok r)).1 =
        Except.error Exc.jsonDecodeError) := by
  have hn : ¬ (r.status ≥ 400) := by omega
  refine ⟨?_, ?_, ?_⟩
  · intro j hct hp; simp [requestAttempt, hn, respJson, hct, hp]
  · intro hct; simp [requestAttempt, hn, respJson, hct]
  · intro hct hp; simp [requestAttempt, hn, respJson, hct, hp]

/-- Witness for C7 (amended) at a concrete plain-text 200 response. -/
theorem success_body_decoding_witness :
    (requestAttempt (mkClient "https://api.test.com") "GET" "ping"
        (TransportOutcome.ok ⟨200, false, none, "pong"⟩)).1 =
      Except.ok (ResponseBody.text "pong") :=
  (success_body_decoding (mkClient "https://api.test.com") "GET" "ping"
      ⟨200, false, none, "pong"⟩ (by norm_num)).2.1 rfl

/-- C1 counterexample: with every attempt answered by a 500 response and
a try budget of 3, the backoff layer makes 3 attempts — the HTTP-status
error raised by `raise_for_status()` is an `aiohttp.ClientError` and is
therefore retried, not terminal. -/
theorem retry_on_http_status_counterexample :
    (requestWithRetry (mkClient "https://api.test.com") "GET" "jobs"
        (fun _ => TransportOutcome.ok ⟨500, false, none, "boom"⟩) 3).2
      = 3 ∧
    (requestWithRetry (mkClient "https://api.test.com") "GET" "jobs"
        (fun _ => TransportOutcome.ok ⟨500, false, none, "boom"⟩) 3).1
      = Except.error (Exc.clientResponseError 500) :=
  ⟨rfl, rfl⟩

/-- C1 amended: the backoff layer retries transport failures
(`aiohttp.ClientError`, `asyncio.TimeoutError`); the HTTP-status error
raised for a 4xx/5xx response is an `aiohttp.ClientError` subclass, so
such responses are ALSO retried, up to the configured try budget, after
which the status-carrying error surfaces to the caller. -/
theorem http_status_error_retried (c : Client) (me ep : String)
    (r : HttpResponse) (h : 400 ≤ r.status) (n : Nat) (hn : 1 ≤ n) :
    backoffCatches (Exc.clientResponseError r.status) = true ∧
    backoffCatches Exc.clientConnError = true ∧
    backoffCatches Exc.timeoutError = true ∧
    requestWithRetry c me ep (fun _ => TransportOutcome.ok r) n =
      (Except.error (Exc.clientResponseError r.status), n) :=
  ⟨rfl, rfl, rfl, requestWithRetry_const_error c me ep r h n hn⟩

/-- Witness for C1 (amended) at a concrete 503 response and budget 2. -/
theorem http_status_error_retried_witness :
    backoffCatches (Exc.clientResponseError 503) = true ∧
    backoffCatches Exc.clientConnError = true ∧
    backoffCatches Exc.timeoutError = true ∧
    requestWithRetry (mkClient "https://api.test.com") "GET" "jobs"
        (fun _ => TransportOutcome.ok ⟨503, true, none, "oops"⟩) 2 =
      (Except.error (Exc.clientResponseError 503), 2) :=
  http_status_error_retried (mkClient "https://api.test.com") "GET" "jobs"
    ⟨503, true, none, "oops"⟩ (by norm_num) 2 (by norm_num)

/-- C4: `client.get(E)` issues exactly one logical request on a
successful attempt, whose URL is `base_url ++ "/" ++ E` with a single
slash at the join point — trailing slashes of `base_url` are stripped at
construction, leading slashes of `E` at request time, so the URL is
invariant under them. -/
theorem get_single_request_normalized_url (b e : String)
    (t : TransportOutcome) (n : Nat) (hn : 1 ≤ n) :
    (requestAttempt (mkClient b) "GET" e t).2.url =
      rstripSlash b ++ "/" ++ lstripSlash e ∧
    (∀ v, (requestAttempt (mkClient b) "GET" e t).1 = Except.ok v →
      clientGet (mkClient b) e (fun _ => t) n = (Except.ok v, 1)) ∧
    (∀ k, requestUrl (mkClient (b ++ slashes k)) e =
      requestUrl (mkClient b) e) ∧
    (∀ k, requestUrl (mkClient b) (slashes k ++ e) =
      requestUrl (mkClient b) e) ∧
    ¬ endsWithSlash (rstripSlash b) ∧ ¬ startsWithSlash (lstripSlash e) := by
  refine ⟨?_, ?_, ?_, ?_, rstripSlash_not_endsWithSlash b,
    lstripSlash_not_startsWithSlash e⟩
  · rw [requestAttempt_url]
    simp [requestUrl, mkClient, rstripSlash_idem]
  · intro v hv
    exact requestWithRetry_first_ok _ _ _ _ n hn v hv
  · intro k
    simp [requestUrl, mkClient, rstripSlash_append_slashes]
  · intro k
    simp [requestUrl, mkClient, lstripSlash_slashes_append]

/-- Witness for C4: base URL with three trailing slashes and endpoint
with two leading slashes join into a single-slash URL, with one attempt
made. -/
theorem get_single_request_normalized_url_witness :
    (requestAttempt (mkClient "https://api.test.com///") "GET" "//v1/items"
        (TransportOutcome.ok ⟨200, false, none, "ok"⟩)).2.url =
      "https://api.test.com" ++ "/" ++ "v1/items" ∧
    clientGet (mkClient "https://api.test.com///") "//v1/items"
        (fun _ => TransportOutcome.ok ⟨200, false, none, "ok"⟩) 3 =
      (Except.ok (ResponseBody.text "ok"), 1) := by
  have h := get_single_request_normalized_url "https://api.test.com///"
    "//v1/items" (TransportOutcome.ok ⟨200, false, none, "ok"⟩) 3
    (by norm_num)
  exact ⟨by rw [h.1]; rfl, h.2.1 (ResponseBody.text "ok") rfl⟩

/-- C3 counterexample: a transport call that raises an exception outside
the sender's `except` clause (`except TelegramError` for Telegram,
`except SMTPException` for email) escapes `_send` instead of being
converted to a boolean. -/
theorem sender_exception_escapes_counterexample :
    (telegramSend ⟨some "42", some "hi", some "telegram", some "text", none⟩
        (SendOutcome.raises Exc.otherError)).1 =
      Except.error Exc.otherError ∧
    (emailSend ⟨some "a@b.c", some "hi", some "email", none, none⟩
        (SendOutcome.raises Exc.otherError)).1 =
      Except.error Exc.otherError :=
  ⟨rfl, rfl⟩

/-- C3 amended: `SmsSender._send` (whose handler is `except Exception`)
returns a boolean for every message and every transport outcome;
`TelegramSender._send` and `EmailSender._send` return a boolean for every
message whenever the transport returns or raises the library's own error
type (`TelegramError` / `SMTPException`) — an exception of any other kind
escapes their boundary. -/
theorem senders_return_bool (m : Message) (t : SendOutcome)
    (st : SmsOutcome) :
    (∃ b, (smsSend m st).1 = Except.ok b) ∧
    (t = SendOutcome.success ∨ t = SendOutcome.raises Exc.telegramError →
      ∃ b, (telegramSend m t).1 = Except.ok b) ∧
    (t = SendOutcome.success ∨ t = SendOutcome.raises Exc.smtpException →
      ∃ b, (emailSend m t).1 = Except.ok b) := by
  refine ⟨?_, ?_, ?_⟩
  · by_cases hv : (falsy m.mto || falsy m.content) = true
    · exact ⟨false, by simp [smsSend, hv]⟩
    · cases st with
      | resp status =>
        exact ⟨status == 200 || status == 201, by simp [smsSend, hv]⟩
      | raises e => exact ⟨false, by simp [smsSend, hv]⟩
  · intro ht
    by_cases hv : (falsy m.mto || falsy m.content) = true
    · exact ⟨false, by simp [telegramSend, hv]⟩
    · by_cases hm : (m.mtype.getD "text") ∈ tgSendMethods
      · rcases ht with ht | ht <;> subst ht
        · exact ⟨true, by simp [telegramSend, hv, hm]⟩
        · exact ⟨false, by simp [telegramSend, hv, hm]⟩
      · exact ⟨false, by simp [telegramSend, hv, hm]⟩
  · intro ht
    by_cases hv : (falsy m.mto || falsy m.content) = true
    · exact ⟨false, by simp [emailSend, hv]⟩
    · rcases ht with ht | ht <;> subst ht
      · exact ⟨true, by simp [emailSend, hv]⟩
      · exact ⟨false, by simp [emailSend, hv]⟩

/-- Witness for C3 (amended) at a concrete message, a successful
transport and a 200 SMS response. -/
theorem senders_return_bool_witness :
    (∃ b, (smsSend ⟨some "+1555", some "hi", some "sms", none, none⟩
        (SmsOutcome.resp 200)).1 = Except.ok b) ∧
    (SendOutcome.success = SendOutcome.success ∨
        SendOutcome.success = SendOutcome.raises Exc.telegramError →
      ∃ b, (telegramSend ⟨some "+1555", some "hi", some "sms", none, none⟩
          SendOutcome.success).1 = Except.ok b) ∧
    (SendOutcome.success = SendOutcome.success ∨
        SendOutcome.success = SendOutcome.raises Exc.smtpException →
      ∃ b, (emailSend ⟨some "+1555", some "hi", some "sms", none, none⟩
          SendOutcome.success).1 = Except.ok b) :=
  senders_return_bool ⟨some "+1555", some "hi", some "sms", none, none⟩
    SendOutcome.success (SmsOutcome.resp 200)

/-- C6: when the message's channel is absent or not a key of the
registry, `NotificationDispatcher.send` returns `False` without raising
and without invoking any sender; otherwise it returns the registered
sender's result verbatim. -/
theorem dispatch_channel_routing (m : Message) (t : SendOutcome) :
    ((m.channel = none ∨
        ∀ c, m.channel = some c → senderRegistry.lookup c = none) →
      dispatchSend m t = (Except.ok false, false)) ∧
    (∀ c tag, m.channel = some c → senderRegistry.lookup c = some tag →
      dispatchSend m t = ((runSender tag m t).1, true)) := by
  constructor
  · intro h
    cases hm : m.channel with
    | none => simp [dispatchSend, hm]
    | some c =>
      rcases h with h1 | h2
      · rw [hm] at h1; cases h1
      · have hl := h2 c hm
        simp [dispatchSend, hm, hl]
  · intro c tag hc htag
    simp [dispatchSend, hc, htag]

/-- Witness for C6: an unregistered channel string returns `False` with
no sender invoked, and the registered channel delegates verbatim. -/
theorem dispatch_channel_routing_witness :
    dispatchSend ⟨some "42", some "hi", some "unknown", none, none⟩
        SendOutcome.success = (Except.ok false, false) ∧
    dispatchSend ⟨some "42", some "hi", some "telegram", none, none⟩
        SendOutcome.success =
      ((runSender SenderTag.telegram
          ⟨some "42", some "hi", some "telegram", none, none⟩
          SendOutcome.success).1, true) :=
  ⟨(dispatch_channel_routing
        ⟨some "42", some "hi", some "unknown", none, none⟩
        SendOutcome.success).1
      (Or.inr (fun c hc => by cases hc; rfl)),
    (dispatch_channel_routing
        ⟨some "42", some "hi", some "telegram", none, none⟩
        SendOutcome.success).2 "telegram" SenderTag.telegram rfl rfl⟩

/-- C8: with non-empty `to` and `content`, `SmsSender._send` returns
`True` iff the gateway's response status is 200 or 201; in particular a
201 response yields `True` and a 500 response yields `False`. -/
theorem sms_success_iff_status (m : Message) (hto : falsy m.mto = false)
    (hc : falsy m.content = false) (status : Nat) :
    ((smsSend m (SmsOutcome.resp status)).1 = Except.ok true ↔
      (status = 200 ∨ status = 201)) ∧
    (smsSend m (SmsOutcome.resp 201)).1 = Except.ok true ∧
    (smsSend m (SmsOutcome.resp 500)).1 = Except.ok false := by
  simp [smsSend, hto, hc]

/-- Witness for C8 at the message from the spec's example. -/
theorem sms_success_iff_status_witness :
    ((smsSend ⟨some "+1555", some "hi", some "sms", none, none⟩
        (SmsOutcome.resp 201)).1 = Except.ok true ↔
      ((201 : Nat) = 200 ∨ (201 : Nat) = 201)) ∧
    (smsSend ⟨some "+1555", some "hi", some "sms", none, none⟩
        (SmsOutcome.resp 201)).1 = Except.ok true ∧
    (smsSend ⟨some "+1555", some "hi", some "sms", none, none⟩
        (SmsOutcome.resp 500)).1 = Except.ok false :=
  sms_success_iff_status ⟨some "+1555", some "hi", some "sms", none, none⟩
    rfl rfl 201

/-- C9: when `to` or `content` is absent or falsy, `EmailSender._send`
and `SmsSender._send` return `False` with no transport call made. -/
theorem missing_fields_short_circuit (m : Message) (t : SendOutcome)
    (st : SmsOutcome)
    (h : falsy m.mto = true ∨ falsy m.content = true) :
    emailSend m t = (Except.ok false, false) ∧
    smsSend m st = (Except.ok false, false) := by
  have hv : (falsy m.mto || falsy m.content) = true := by
    rcases h with h | h <;> simp [h]
  exact ⟨by simp [emailSend, hv], by simp [smsSend, hv]⟩

/-- Witness for C9 at the empty message `{}`. -/
theorem missing_fields_short_circuit_witness :
    emailSend ⟨none, none, none, none, none⟩ SendOutcome.success =
      (Except.ok false, false) ∧
    smsSend ⟨none, none, none, none, none⟩ (SmsOutcome.resp 200) =
      (Except.ok false, false) :=
  missing_fields_short_circuit ⟨none, none, none, none, none⟩
    SendOutcome.success (SmsOutcome.resp 200) (Or.inl rfl)

/-- C10: the registry built by `NotificationDispatcher.__init__` has
exactly the key `"telegram"`, so `send` on a message whose channel is
`"email"`, `"sms"` or any other non-`"telegram"` string returns `False`
without invoking any sender. -/
theorem registry_only_telegram :
    senderRegistry.map Prod.fst = ["telegram"] ∧
    ∀ (m : Message) (t : SendOutcome) (c : String), m.channel = some c →
      c ≠ "telegram" → dispatchSend m t = (Except.ok false, false) := by
  refine ⟨rfl, ?_⟩
  intro m t c hc hne
  have hb : (c == "telegram") = false := beq_eq_false_iff_ne.mpr hne
  have hl : senderRegistry.lookup c = none := by
    simp [senderRegistry, List.lookup, hb]
  simp [dispatchSend, hc, hl]

/-- Witness for C10 at channel `"email"`. -/
theorem registry_only_telegram_witness :
    senderRegistry.map Prod.fst = ["telegram"] ∧
    dispatchSend ⟨some "a@b.c", some "hi", some "email", none, none⟩
        SendOutcome.success = (Except.ok false, false) :=
  ⟨registry_only_telegram.1,
    registry_only_telegram.2
      ⟨some "a@b.c", some "hi", some "email", none, none⟩
      SendOutcome.success "email" rfl (by decide)⟩

end Adlytics
